import Mathlib

/-!
Shallow embedding of the manifest transformation pipeline and the
configuration resolver of the Temporal benchmark infrastructure program
(`index.ts`).  Structured Kubernetes objects are modelled as a record
holding exactly the fields the program reads or writes; the cloud
provisioning calls are opaque external effects and only their
address-shaped outputs (endpoints) appear, as explicit parameters.
-/

namespace TemporalBench

/-- One entry of `spec.template.spec.tolerations`. -/
structure Toleration where
  key : String
  operator : String
  value : String
  effect : String
deriving DecidableEq, Repr

/-- `resources.requests` / `resources.limits`: optional CPU/memory quantity strings. -/
structure ResourceValues where
  cpu : Option String
  memory : Option String
deriving DecidableEq, Repr

/-- `containers[0].resources`. -/
structure Resources where
  requests : ResourceValues
  limits : ResourceValues
deriving DecidableEq, Repr

/-- One entry of `spec.template.spec.containers`. -/
structure Container where
  image : Option String
  resources : Resources
deriving DecidableEq, Repr

/-- `sigv4` block of a remote-write entry. -/
structure SigV4 where
  region : String
deriving DecidableEq, Repr

/-- `queue_config` block of a remote-write entry. -/
structure QueueConfig where
  maxSamplesPerSend : Nat
  maxShards : Nat
  capacity : Nat
deriving DecidableEq, Repr

/-- One entry of `writeRelabelConfigs`. -/
structure RelabelConfig where
  sourceLabels : List String
  regex : Option String
  targetLabel : Option String
  action : Option String
deriving DecidableEq, Repr

/-- One entry of `spec.remoteWrite`. -/
structure RemoteWriteEntry where
  url : String
  sigv4 : SigV4
  queueConfig : QueueConfig
  writeRelabelConfigs : List RelabelConfig
deriving DecidableEq, Repr

/-- `spec.datasource.jsonData` as written by `configureAWSDatasource`. -/
structure SigV4JsonData where
  sigV4Auth : Bool
  sigV4AuthType : String
  sigV4Region : String
deriving DecidableEq, Repr

/-- `spec.datasource` of a GrafanaDatasource object. -/
structure Datasource where
  url : Option String
  jsonData : Option SigV4JsonData
deriving DecidableEq, Repr

/-- `spec.external` of a Grafana object. -/
structure External where
  url : Option String
deriving DecidableEq, Repr

/-- `spec.template`. -/
structure PodSpec where
  containers : List Container
  tolerations : Option (List Toleration)
deriving DecidableEq, Repr

/-- `spec.template` wrapper. -/
structure Template where
  spec : PodSpec
deriving DecidableEq, Repr

/-- The union of all `spec` fields the program touches on any kind of object
(the source works on untyped decoded YAML, so a single record with optional
leaves models the accessed paths). -/
structure ObjSpec where
  replicas : Option Int
  template : Template
  replicaExternalLabelName : Option String
  remoteWrite : Option (List RemoteWriteEntry)
  datasource : Datasource
  external : External
deriving DecidableEq, Repr

/-- `metadata` of a structured object. -/
structure Metadata where
  name : String
deriving DecidableEq, Repr

/-- One decoded manifest document as seen by the transformations. -/
structure StructuredObject where
  kind : String
  metadata : Metadata
  spec : ObjSpec
deriving DecidableEq, Repr

/-- JavaScript truthiness of an optional string value (the guards of
`setLimits` are `if (cpu?.request)` etc.: `undefined` and `""` are falsy). -/
def jsTruthy : Option String → Bool
  | some s => !(s == "")
  | none => false

/-- `CPULimits` interface: a pair of quantity strings, optional at runtime. -/
structure CPULimits where
  request : Option String
  limit : Option String
deriving DecidableEq, Repr

/-- `MemoryLimits` interface: a pair of quantity strings, optional at runtime. -/
structure MemoryLimits where
  request : Option String
  limit : Option String
deriving DecidableEq, Repr

/-- The body of `setLimits` acting on `containers[0]`: each of the four
resource leaves is assigned exactly when its source value is truthy.
(The source reads `containers[0]` and faults on an empty container list;
the transformations below apply this to the head container when present.) -/
def applyLimitsToContainer (cpu : Option CPULimits) (memory : Option MemoryLimits)
    (c : Container) : Container :=
  let c1 := if jsTruthy (cpu.bind CPULimits.request) then
      { c with resources := { c.resources with
          requests := { c.resources.requests with cpu := cpu.bind CPULimits.request } } }
    else c
  let c2 := if jsTruthy (cpu.bind CPULimits.limit) then
      { c1 with resources := { c1.resources with
          limits := { c1.resources.limits with cpu := cpu.bind CPULimits.limit } } }
    else c1
  let c3 := if jsTruthy (memory.bind MemoryLimits.request) then
      { c2 with resources := { c2.resources with
          requests := { c2.resources.requests with memory := memory.bind MemoryLimits.request } } }
    else c2
  if jsTruthy (memory.bind MemoryLimits.limit) then
      { c3 with resources := { c3.resources with
          limits := { c3.resources.limits with memory := memory.bind MemoryLimits.limit } } }
    else c3

/-- `scaleDeployment(name, replicas)`: sets `spec.replicas` on the matching
Deployment. -/
def scaleDeployment (tn : String) (replicas : Int) (o : StructuredObject) : StructuredObject :=
  if o.kind == "Deployment" && o.metadata.name == tn then
    { o with spec := { o.spec with replicas := some replicas } }
  else o

/-- `setLimits(name, cpu, memory)`: conditionally sets the four resource
leaves of the first container of the matching Deployment. -/
def setLimits (tn : String) (cpu : Option CPULimits) (memory : Option MemoryLimits)
    (o : StructuredObject) : StructuredObject :=
  if o.kind == "Deployment" && o.metadata.name == tn then
    { o with spec := { o.spec with template := { o.spec.template with
        spec := { o.spec.template.spec with
          containers := o.spec.template.spec.containers.modifyHead
            (applyLimitsToContainer cpu memory) } } } }
  else o

/-- `tolerateDedicated(value)`: overwrites the toleration list of every
Deployment (no name filter). -/
def tolerateDedicated (value : String) (o : StructuredObject) : StructuredObject :=
  if o.kind == "Deployment" then
    { o with spec := { o.spec with template := { o.spec.template with
        spec := { o.spec.template.spec with
          tolerations := some [⟨"dedicated", "Equal", value, "NoSchedule"⟩] } } } }
  else o

/-- `configureRemoteWrite(name, region, endpoint)`: on the matching
Prometheus object forces one replica, clears the replica external label
name, and replaces the remote-write list with a single fixed entry. -/
def configureRemoteWrite (tn region endpoint : String) (o : StructuredObject) : StructuredObject :=
  if o.kind == "Prometheus" && o.metadata.name == tn then
    { o with spec := { o.spec with
        replicas := some 1,
        replicaExternalLabelName := some "",
        remoteWrite := some [
          { url := endpoint ++ "api/v1/remote_write",
            sigv4 := { region := region },
            queueConfig := { maxSamplesPerSend := 1000, maxShards := 200, capacity := 2500 },
            writeRelabelConfigs := [
              { sourceLabels := ["exported_namespace"], regex := some "(.+)",
                targetLabel := some "namespace", action := none },
              { sourceLabels := [], regex := some "exported_namespace",
                targetLabel := none, action := some "labeldrop" } ] } ] } }
  else o

/-- `configureAWSDatasource(name, region, endpoint)`: on the matching
GrafanaDatasource object overwrites the URL when the endpoint is non-empty
and always overwrites `jsonData` with the SigV4 signing block. -/
def configureAWSDatasource (tn region endpoint : String) (o : StructuredObject) : StructuredObject :=
  if o.kind == "GrafanaDatasource" && o.metadata.name == tn then
    let o1 := if endpoint != "" then
        { o with spec := { o.spec with
            datasource := { o.spec.datasource with url := some endpoint } } }
      else o
    { o1 with spec := { o1.spec with
        datasource := { o1.spec.datasource with
          jsonData := some { sigV4Auth := true, sigV4AuthType := "ec2_iam_role",
                             sigV4Region := region } } } }
  else o

/-- `configureExternalGrafana(name, endpoint)`: sets the external URL of the
matching Grafana object. -/
def configureExternalGrafana (tn endpoint : String) (o : StructuredObject) : StructuredObject :=
  if o.kind == "Grafana" && o.metadata.name == tn then
    { o with spec := { o.spec with
        external := { o.spec.external with url := some ("https://" ++ endpoint) } } }
  else o

/-- The transformation generators that build the `temporal` and `benchmark`
kustomize transformation lists. -/
inductive Transform where
  | scale (tn : String) (replicas : Int)
  | limits (tn : String) (cpu : Option CPULimits) (memory : Option MemoryLimits)
  | tolerate (value : String)
deriving DecidableEq, Repr

/-- Apply one configured transformation to one object. -/
def applyTransform : Transform → StructuredObject → StructuredObject
  | .scale tn r, o => scaleDeployment tn r o
  | .limits tn c m, o => setLimits tn c m o
  | .tolerate v, o => tolerateDedicated v o

/-- Apply a transformation list, in order, to one object. -/
def applyList (ts : List Transform) (o : StructuredObject) : StructuredObject :=
  ts.foldl (fun o t => applyTransform t o) o

/-- Pipeline semantics over a manifest group: each transformation in order
is invoked on every object of the group. -/
def applyGroup (ts : List Transform) (g : List StructuredObject) : List StructuredObject :=
  ts.foldl (fun g t => g.map (applyTransform t)) g

/-! ## Configuration resolver (`createCluster` / `createPersistence`) -/

/-- `EKSClusterConfig`. -/
structure EKSClusterConfig where
  EnvironmentStackName : String
  NodeType : String
  NodeCount : Nat
deriving DecidableEq, Repr

/-- `ClusterConfig`: the cluster oneof (only the EKS variant exists). -/
structure ClusterConfig where
  EKS : Option EKSClusterConfig
deriving DecidableEq, Repr

/-- `RDSPersistenceConfig`. -/
structure RDSPersistenceConfig where
  EnvironmentStackName : String
  Engine : String
  EngineVersion : String
  InstanceType : String
  SingleAZ : Bool
deriving DecidableEq, Repr

/-- `CassandraPersistenceConfig`. -/
structure CassandraPersistenceConfig where
  NodeType : String
  NodeCount : Nat
  ReplicaCount : Nat
deriving DecidableEq, Repr

/-- `OpenSearchConfig`. -/
structure OpenSearchConfig where
  InstanceType : String
  EngineVersion : String
deriving DecidableEq, Repr

/-- `VisibilityConfig`: the optional visibility choice. -/
structure VisibilityConfig where
  OpenSearch : Option OpenSearchConfig
deriving DecidableEq, Repr

/-- `PersistenceConfig`: the persistence oneof plus nested visibility. -/
structure PersistenceConfig where
  RDS : Option RDSPersistenceConfig
  Cassandra : Option CassandraPersistenceConfig
  Visibility : VisibilityConfig
deriving DecidableEq, Repr

/-- `createCluster`: succeeds on the EKS variant (provisioning itself is an
external effect, so the resolved EKS configuration stands for the result),
otherwise throws `invalid cluster config`. -/
def createCluster (cc : ClusterConfig) : Except String EKSClusterConfig :=
  match cc.EKS with
  | some e => .ok e
  | none => .error "invalid cluster config"

/-- The environment-variable map returned by `rdsPersistence`: the common
keys, the family-prefixed keys, and the trailing `dbExtras` spread.
`endpoint` is the database address resolved by the external provisioning
call. -/
def rdsData (shards : Nat) (dbType : String) (dbPort : Nat) (dbPref : String)
    (endpoint : String) (dbExtras : List (String × String)) : List (String × String) :=
  [("NUM_HISTORY_SHARDS", toString shards),
   ("DB", dbType),
   ("DB_PORT", toString dbPort),
   (dbPref ++ "_SEEDS", endpoint),
   (dbPref ++ "_USER", "temporal"),
   (dbPref ++ "_PWD", "temporal"),
   ("DBNAME", "temporal_persistence")] ++ dbExtras

/-- `rdsPersistence`: maps the engine identifier to its
(protocol, port, key-prefix) triple and builds the output map; an
unrecognized engine throws `invalid RDS config`. -/
def rdsPersistence (shards : Nat) (cfg : RDSPersistenceConfig) (endpoint : String) :
    Except String (List (String × String)) :=
  if cfg.Engine == "postgres" || cfg.Engine == "aurora-postgresql" then
    .ok (rdsData shards "postgresql" 5432 "POSTGRES" endpoint [])
  else if cfg.Engine == "mysql" || cfg.Engine == "aurora-mysql" then
    .ok (rdsData shards "mysql" 3306 "MYSQL" endpoint
      [("MYSQL_TX_ISOLATION_COMPAT", "true")])
  else
    .error "invalid RDS config"

/-- `cassandraPersistence`: the fixed in-cluster Cassandra output map. -/
def cassandraPersistence (shards : Nat) (_cfg : CassandraPersistenceConfig) :
    List (String × String) :=
  [("NUM_HISTORY_SHARDS", toString shards),
   ("DB", "cassandra"),
   ("DB_PORT", "9042"),
   ("CASSANDRA_SEEDS", "cassandra.cassandra.svc.cluster.local"),
   ("CASSANDRA_USER", "temporal"),
   ("CASSANDRA_PASSWORD", "temporal"),
   ("CASSANDRA_REPLICATION_FACTOR", "3"),
   ("DBNAME", "temporal_persistence")]

/-- `opensearchVisibility`: the visibility contribution (the OpenSearch
domain and proxy are external resources; the map is fixed). -/
def opensearchVisibility : List (String × String) :=
  [("ENABLE_ES", "true"),
   ("ES_SCHEMA", "http"),
   ("ES_SEEDS", "opensearch-proxy.default.svc.cluster.local"),
   ("ES_PORT", "80")]

/-- `createAdvancedVisibility`: empty contribution when the visibility
choice is absent. -/
def createAdvancedVisibility (v : VisibilityConfig) : List (String × String) :=
  match v.OpenSearch with
  | some _ => opensearchVisibility
  | none => []

/-- `createPersistence`: the RDS branch is tried first, then Cassandra, and
`invalid persistence config` is thrown when neither is populated; the
visibility contribution is appended to the result. `shards` is
`temporalConfig.History.Shards`; `endpoint` is the RDS address resolved by
the external provisioning call. -/
def createPersistence (shards : Nat) (endpoint : String) (cfg : PersistenceConfig) :
    Except String (List (String × String)) :=
  match cfg.RDS with
  | some r => (rdsPersistence shards r endpoint).map
      (fun p => p ++ createAdvancedVisibility cfg.Visibility)
  | none =>
    match cfg.Cassandra with
    | some c => .ok (cassandraPersistence shards c ++ createAdvancedVisibility cfg.Visibility)
    | none => .error "invalid persistence config"

/-- The `benchmark-soaktest-env` config-map data:
`CONCURRENT_WORKFLOWS = Math.ceil(SoakTest.ConcurrentWorkflows / Frontend.Pods)`. -/
def soakTestConfigData (cw pods : Nat) : List (String × String) :=
  [("CONCURRENT_WORKFLOWS", toString (Nat.ceil ((cw : ℚ) / (pods : ℚ))))]

/-- Key lookup in the environment-variable output map. -/
def hasKey (l : List (String × String)) (k : String) : Bool :=
  l.any (fun p => p.fst == k)

/-- Value lookup in the environment-variable output map. -/
def lookupKey (l : List (String × String)) (k : String) : Option String :=
  (l.find? (fun p => p.fst == k)).map Prod.snd

/-! ## Observation helpers on structured objects -/

/-- The first container of a Deployment-shaped object, when present. -/
def headContainer (o : StructuredObject) : Option Container :=
  o.spec.template.spec.containers.head?

/-- `containers[0].resources.requests.cpu`. -/
def reqCpuOf (o : StructuredObject) : Option String :=
  (headContainer o).bind (fun c => c.resources.requests.cpu)

/-- `containers[0].resources.limits.cpu`. -/
def limCpuOf (o : StructuredObject) : Option String :=
  (headContainer o).bind (fun c => c.resources.limits.cpu)

/-- `containers[0].resources.requests.memory`. -/
def reqMemOf (o : StructuredObject) : Option String :=
  (headContainer o).bind (fun c => c.resources.requests.memory)

/-- `containers[0].resources.limits.memory`. -/
def limMemOf (o : StructuredObject) : Option String :=
  (headContainer o).bind (fun c => c.resources.limits.memory)

/-- Erase the resources block of the first container: two objects equal
under this map agree everywhere except possibly on that block. -/
def clearHeadResources (o : StructuredObject) : StructuredObject :=
  { o with spec := { o.spec with template := { o.spec.template with
      spec := { o.spec.template.spec with
        containers := o.spec.template.spec.containers.modifyHead
          (fun c => { c with resources := ⟨⟨none, none⟩, ⟨none, none⟩⟩ }) } } } }

/-! ## Pending-write semantics of the pipeline transformations

Each of the three configured transformations writes constant values to a
fixed set of fields, guarded by predicates on the immutable `kind` and
`metadata.name`.  A `Writes` record collects the pending writes of a
transformation (or of a whole list of them); applying a list of
transformations equals applying its accumulated writes, from which
idempotence of re-application follows. -/

/-- Pending writes of a (list of) transformation(s): `some v` means the
field will be overwritten with `v`. -/
structure Writes where
  replicas : Option Int
  tolerations : Option (List Toleration)
  reqCpu : Option String
  limCpu : Option String
  reqMem : Option String
  limMem : Option String
deriving DecidableEq, Repr

/-- The empty pending write set. -/
def noWrites : Writes := ⟨none, none, none, none, none, none⟩

/-- Apply one pending field write. -/
def wapp {α : Type} (w : Option α) (a : Option α) : Option α :=
  match w with
  | some v => some v
  | none => a

/-- Later-writer-wins override of pending field writes. -/
def ovr {α : Type} (a b : Option α) : Option α :=
  match b with
  | some v => some v
  | none => a

/-- Combine pending writes, the second argument acting later. -/
def mergeW (w1 w2 : Writes) : Writes :=
  ⟨ovr w1.replicas w2.replicas, ovr w1.tolerations w2.tolerations,
   ovr w1.reqCpu w2.reqCpu, ovr w1.limCpu w2.limCpu,
   ovr w1.reqMem w2.reqMem, ovr w1.limMem w2.limMem⟩

/-- Apply pending container writes to one container. -/
def applyWritesC (w : Writes) (c : Container) : Container :=
  { c with resources :=
      { requests := { cpu := wapp w.reqCpu c.resources.requests.cpu,
                      memory := wapp w.reqMem c.resources.requests.memory },
        limits := { cpu := wapp w.limCpu c.resources.limits.cpu,
                    memory := wapp w.limMem c.resources.limits.memory } } }

/-- Apply pending writes to one object. -/
def applyWrites (w : Writes) (o : StructuredObject) : StructuredObject :=
  { o with spec := { o.spec with
      replicas := wapp w.replicas o.spec.replicas,
      template := { o.spec.template with spec := { o.spec.template.spec with
        tolerations := wapp w.tolerations o.spec.template.spec.tolerations,
        containers := o.spec.template.spec.containers.modifyHead (applyWritesC w) } } } }

/-- A write happens exactly when the source value is truthy. -/
def truthyVal (x : Option String) : Option String :=
  if jsTruthy x then x else none

/-- The pending writes of one transformation on an object of the given
kind and name. -/
def transWrites (k n : String) : Transform → Writes
  | .scale tn r =>
      if k == "Deployment" && n == tn then { noWrites with replicas := some r } else noWrites
  | .limits tn c m =>
      if k == "Deployment" && n == tn then
        { replicas := none, tolerations := none,
          reqCpu := truthyVal (c.bind CPULimits.request),
          limCpu := truthyVal (c.bind CPULimits.limit),
          reqMem := truthyVal (m.bind MemoryLimits.request),
          limMem := truthyVal (m.bind MemoryLimits.limit) }
      else noWrites
  | .tolerate v =>
      if k == "Deployment" then
        { noWrites with tolerations := some [⟨"dedicated", "Equal", v, "NoSchedule"⟩] }
      else noWrites

/-- Accumulated pending writes of a transformation list. -/
def listWrites (k n : String) (ts : List Transform) : Writes :=
  ts.foldl (fun w t => mergeW w (transWrites k n t)) noWrites

/-! ## Concrete fixtures -/

/-- An empty resources block. -/
def noResources : Resources := ⟨⟨none, none⟩, ⟨none, none⟩⟩

/-- A sample Deployment object with all four resource leaves populated. -/
def sampleDeployment : StructuredObject :=
  { kind := "Deployment", metadata := ⟨"temporal-frontend"⟩,
    spec := { replicas := some 2,
              template := ⟨⟨[⟨some "img", ⟨⟨some "250m", some "1Gi"⟩, ⟨some "1", some "2Gi"⟩⟩⟩],
                            none⟩⟩,
              replicaExternalLabelName := none,
              remoteWrite := none,
              datasource := ⟨none, none⟩,
              external := ⟨none⟩ } }

/-- A sample non-Deployment object (a Service) without a toleration field. -/
def sampleService : StructuredObject :=
  { kind := "Service", metadata := ⟨"temporal-frontend"⟩,
    spec := { replicas := none,
              template := ⟨⟨[], none⟩⟩,
              replicaExternalLabelName := none,
              remoteWrite := none,
              datasource := ⟨none, none⟩,
              external := ⟨none⟩ } }

/-- A sample Prometheus object with a pre-existing two-entry remote-write
list. -/
def samplePrometheus : StructuredObject :=
  { kind := "Prometheus", metadata := ⟨"k8s"⟩,
    spec := { replicas := some 2,
              template := ⟨⟨[], none⟩⟩,
              replicaExternalLabelName := some "prometheus_replica",
              remoteWrite := some [
                ⟨"https://old.example/one", ⟨"eu-central-1"⟩, ⟨10, 1, 100⟩, []⟩,
                ⟨"https://old.example/two", ⟨"eu-west-1"⟩, ⟨20, 2, 200⟩, []⟩],
              datasource := ⟨none, none⟩,
              external := ⟨none⟩ } }

/-- A sample GrafanaDatasource object with a pre-existing URL. -/
def sampleDatasource : StructuredObject :=
  { kind := "GrafanaDatasource", metadata := ⟨"external-prometheus"⟩,
    spec := { replicas := none,
              template := ⟨⟨[], none⟩⟩,
              replicaExternalLabelName := none,
              remoteWrite := none,
              datasource := ⟨some "https://old-datasource.example/", none⟩,
              external := ⟨none⟩ } }

/-- A valid RDS persistence variant. -/
def samplePostgres : RDSPersistenceConfig :=
  ⟨"env", "postgres", "14.7", "db.r6g.2xlarge", false⟩

/-- A Cassandra persistence variant. -/
def sampleCassandra : CassandraPersistenceConfig := ⟨"m5.2xlarge", 3, 3⟩

/-- A persistence configuration with both oneof branches populated. -/
def bothBranches : PersistenceConfig := ⟨some samplePostgres, some sampleCassandra, ⟨none⟩⟩

/-- Both branches populated, the RDS branch carrying an unrecognized engine. -/
def bothBranchesBadEngine : PersistenceConfig :=
  ⟨some ⟨"env", "sqlite", "3", "db.t3.micro", true⟩, some sampleCassandra, ⟨none⟩⟩

/-! ## Lemmas: pending-write semantics -/

theorem wapp_wapp {α : Type} (w2 w1 : Option α) (a : Option α) :
    wapp w2 (wapp w1 a) = wapp (ovr w1 w2) a := by
  cases w2 <;> rfl

theorem ovr_self {α : Type} (a : Option α) : ovr a a = a := by
  cases a <;> rfl

theorem ovr_assoc {α : Type} (a b c : Option α) : ovr (ovr a b) c = ovr a (ovr b c) := by
  cases c <;> cases b <;> rfl

theorem ovr_none_left {α : Type} (b : Option α) : ovr none b = b := by
  cases b <;> rfl

theorem mergeW_self (w : Writes) : mergeW w w = w := by
  cases w
  simp [mergeW, ovr_self]

theorem mergeW_noWrites_left (w : Writes) : mergeW noWrites w = w := by
  cases w
  simp [mergeW, noWrites, ovr_none_left]

theorem mergeW_noWrites_right (w : Writes) : mergeW w noWrites = w := rfl

theorem mergeW_assoc (w1 w2 w3 : Writes) :
    mergeW (mergeW w1 w2) w3 = mergeW w1 (mergeW w2 w3) := by
  cases w1; cases w2; cases w3
  simp [mergeW, ovr_assoc]

theorem applyWritesC_noWrites (c : Container) : applyWritesC noWrites c = c := rfl

theorem applyWritesC_applyWritesC (w1 w2 : Writes) (c : Container) :
    applyWritesC w2 (applyWritesC w1 c) = applyWritesC (mergeW w1 w2) c := by
  simp [applyWritesC, mergeW, wapp_wapp]

theorem modifyHead_modifyHead {α : Type} (f g : α → α) (l : List α) :
    (l.modifyHead f).modifyHead g = l.modifyHead (fun a => g (f a)) := by
  cases l <;> rfl

theorem applyWrites_noWrites (o : StructuredObject) : applyWrites noWrites o = o := by
  rcases o with ⟨k, m, ⟨r, ⟨⟨conts, tols⟩⟩, e1, e2, e3, e4⟩⟩
  cases conts <;> rfl

theorem applyWrites_applyWrites (w1 w2 : Writes) (o : StructuredObject) :
    applyWrites w2 (applyWrites w1 o) = applyWrites (mergeW w1 w2) o := by
  rcases o with ⟨k, m, ⟨r, ⟨⟨conts, tols⟩⟩, e1, e2, e3, e4⟩⟩
  simp [applyWrites, wapp_wapp, modifyHead_modifyHead, mergeW]
  congr 1
  funext c
  exact applyWritesC_applyWritesC w1 w2 c

theorem applyWrites_kind (w : Writes) (o : StructuredObject) :
    (applyWrites w o).kind = o.kind := rfl

theorem applyWrites_metadata (w : Writes) (o : StructuredObject) :
    (applyWrites w o).metadata = o.metadata := rfl

theorem applyWrites_replicas_only (r : Int) (o : StructuredObject) :
    applyWrites { noWrites with replicas := some r } o =
      { o with spec := { o.spec with replicas := some r } } := by
  rcases o with ⟨k, m, ⟨rr, ⟨⟨conts, tols⟩⟩, e1, e2, e3, e4⟩⟩
  cases conts <;> rfl

theorem applyWrites_tolerations_only (tl : List Toleration) (o : StructuredObject) :
    applyWrites { noWrites with tolerations := some tl } o =
      { o with spec := { o.spec with template := { o.spec.template with
          spec := { o.spec.template.spec with tolerations := some tl } } } } := by
  rcases o with ⟨k, m, ⟨rr, ⟨⟨conts, tols⟩⟩, e1, e2, e3, e4⟩⟩
  cases conts <;> rfl

theorem wapp_truthyVal (x a : Option String) :
    wapp (truthyVal x) a = if jsTruthy x then x else a := by
  by_cases h : jsTruthy x
  · rcases x with _ | s
    · simp [jsTruthy] at h
    · simp [truthyVal, wapp, h]
  · simp [truthyVal, wapp, h]

theorem applyLimitsToContainer_eq (cpu : Option CPULimits) (memory : Option MemoryLimits)
    (c : Container) :
    applyLimitsToContainer cpu memory c = applyWritesC
      ⟨none, none, truthyVal (cpu.bind CPULimits.request), truthyVal (cpu.bind CPULimits.limit),
       truthyVal (memory.bind MemoryLimits.request), truthyVal (memory.bind MemoryLimits.limit)⟩
      c := by
  rcases c with ⟨img, ⟨⟨rc, rm⟩, ⟨lc, lm⟩⟩⟩
  by_cases h1 : jsTruthy (cpu.bind CPULimits.request) <;>
    by_cases h2 : jsTruthy (cpu.bind CPULimits.limit) <;>
      by_cases h3 : jsTruthy (memory.bind MemoryLimits.request) <;>
        by_cases h4 : jsTruthy (memory.bind MemoryLimits.limit) <;>
          simp [applyLimitsToContainer, applyWritesC, wapp_truthyVal, h1, h2, h3, h4]

theorem applyTransform_eq_applyWrites (t : Transform) (o : StructuredObject) :
    applyTransform t o = applyWrites (transWrites o.kind o.metadata.name t) o := by
  cases t with
  | scale tn r =>
    simp only [applyTransform, scaleDeployment, transWrites]
    by_cases h : (o.kind == "Deployment" && o.metadata.name == tn) = true
    · rw [if_pos h, if_pos h, applyWrites_replicas_only]
    · rw [if_neg h, if_neg h, applyWrites_noWrites]
  | limits tn cpu memory =>
    simp only [applyTransform, setLimits, transWrites]
    by_cases h : (o.kind == "Deployment" && o.metadata.name == tn) = true
    · rw [if_pos h, if_pos h]
      rcases o with ⟨k, m, ⟨rr, ⟨⟨conts, tols⟩⟩, e1, e2, e3, e4⟩⟩
      cases conts with
      | nil => rfl
      | cons c rest =>
        simp [applyWrites, List.modifyHead, applyLimitsToContainer_eq, wapp]
    · rw [if_neg h, if_neg h, applyWrites_noWrites]
  | tolerate v =>
    simp only [applyTransform, tolerateDedicated, transWrites]
    by_cases h : (o.kind == "Deployment") = true
    · rw [if_pos h, if_pos h, applyWrites_tolerations_only]
    · rw [if_neg h, if_neg h, applyWrites_noWrites]

theorem listWrites_foldl_from (k n : String) (ts : List Transform) (w0 : Writes) :
    ts.foldl (fun w t => mergeW w (transWrites k n t)) w0 = mergeW w0 (listWrites k n ts) := by
  induction ts generalizing w0 with
  | nil => simp [listWrites, mergeW_noWrites_right, List.foldl_nil]
  | cons t ts ih =>
    rw [List.foldl_cons, ih (mergeW w0 (transWrites k n t)), mergeW_assoc]
    have h2 : listWrites k n (t :: ts) = mergeW (transWrites k n t) (listWrites k n ts) := by
      rw [listWrites, List.foldl_cons, mergeW_noWrites_left, ih (transWrites k n t)]
    rw [h2]

theorem listWrites_cons (k n : String) (t : Transform) (ts : List Transform) :
    listWrites k n (t :: ts) = mergeW (transWrites k n t) (listWrites k n ts) := by
  rw [listWrites, List.foldl_cons, mergeW_noWrites_left, listWrites_foldl_from]

theorem applyList_cons (t : Transform) (ts : List Transform) (o : StructuredObject) :
    applyList (t :: ts) o = applyList ts (applyTransform t o) := rfl

theorem applyList_eq_applyWrites (ts : List Transform) (o : StructuredObject) :
    applyList ts o = applyWrites (listWrites o.kind o.metadata.name ts) o := by
  induction ts generalizing o with
  | nil => exact (applyWrites_noWrites o).symm
  | cons t ts ih =>
    rw [applyList_cons, ih (applyTransform t o), applyTransform_eq_applyWrites,
      applyWrites_kind, applyWrites_metadata, applyWrites_applyWrites, ← listWrites_cons]

theorem applyList_idem (ts : List Transform) (o : StructuredObject) :
    applyList ts (applyList ts o) = applyList ts o := by
  rw [applyList_eq_applyWrites ts o,
    applyList_eq_applyWrites ts (applyWrites (listWrites o.kind o.metadata.name ts) o),
    applyWrites_kind, applyWrites_metadata, applyWrites_applyWrites, mergeW_self]

theorem setLimits_no_match (tn : String) (cpu : Option CPULimits)
    (memory : Option MemoryLimits) (o : StructuredObject)
    (h : (o.kind == "Deployment" && o.metadata.name == tn) = false) :
    setLimits tn cpu memory o = o := by
  simp [setLimits, h]

theorem applyGroup_eq_map (ts : List Transform) (g : List StructuredObject) :
    applyGroup ts g = g.map (applyList ts) := by
  induction ts generalizing g with
  | nil => simp [applyGroup, show applyList ([] : List Transform) = fun o => o from rfl]
  | cons t ts ih =>
    rw [applyGroup, List.foldl_cons]
    rw [show List.foldl (fun g t => g.map (applyTransform t)) (g.map (applyTransform t)) ts
        = applyGroup ts (g.map (applyTransform t)) from rfl]
    rw [ih, List.map_map]
    rfl

/-! ## Claim theorems -/

/-- Claim C1 counterexample: a persistence configuration with BOTH oneof
branches populated resolves successfully, where the claim predicts an
invalid-configuration failure. -/
theorem createPersistence_both_populated_ok :
    createPersistence 512 "db.example" bothBranches
      = .ok (rdsData 512 "postgresql" 5432 "POSTGRES" "db.example" []) := rfl

/-- Claim C1 (amended): with zero populated branches, cluster resolution and
persistence resolution fail with the invalid-configuration errors; with more
than one populated persistence branch, resolution resolves through the RDS
branch and does not fail provided the RDS engine identifier is recognized. -/
theorem zero_branch_invalid_config (cc : ClusterConfig) (pc : PersistenceConfig)
    (shards : Nat) (ep : String) :
    (cc.EKS = none → createCluster cc = .error "invalid cluster config")
    ∧ (pc.RDS = none → pc.Cassandra = none →
        createPersistence shards ep pc = .error "invalid persistence config")
    ∧ (∀ r : RDSPersistenceConfig, pc.RDS = some r → pc.Cassandra.isSome = true →
        (r.Engine = "postgres" ∨ r.Engine = "aurora-postgresql" ∨ r.Engine = "mysql"
          ∨ r.Engine = "aurora-mysql") →
        (createPersistence shards ep pc).isOk = true) := by
  refine ⟨?_, ?_, ?_⟩
  · intro h1
    simp [createCluster, h1]
  · intro h2 h3
    simp [createPersistence, h2, h3]
  · intro r hr _ he
    rcases he with he | he | he | he <;>
      simp [createPersistence, hr, rdsPersistence, he, Except.map, Except.isOk, Except.toBool]

/-- Claim C1 witness: the empty cluster and persistence configurations fail
with the invalid-configuration errors, while a persistence configuration
with both branches populated and a recognized engine resolves successfully. -/
theorem zero_branch_invalid_config_witness :
    createCluster ⟨none⟩ = .error "invalid cluster config"
    ∧ createPersistence 512 "db.example" ⟨none, none, ⟨none⟩⟩
      = .error "invalid persistence config"
    ∧ (createPersistence 512 "db.example" bothBranches).isOk = true := by
  have h1 := zero_branch_invalid_config ⟨none⟩ ⟨none, none, ⟨none⟩⟩ 512 "db.example"
  have h2 := zero_branch_invalid_config ⟨none⟩ bothBranches 512 "db.example"
  exact ⟨h1.1 rfl, h1.2.1 rfl rfl, h2.2.2 samplePostgres rfl rfl (Or.inl rfl)⟩

/-- Claim C2: `setLimits` writes only the resource fields whose source value
is present (truthy): every field whose source value is absent keeps its
pre-call value on the first container, and nothing outside the first
container's resources block is modified. -/
theorem setLimits_writes_only_present (tn : String) (cpu : Option CPULimits)
    (memory : Option MemoryLimits) (o : StructuredObject) :
    clearHeadResources (setLimits tn cpu memory o) = clearHeadResources o
    ∧ (jsTruthy (cpu.bind CPULimits.request) = false →
        reqCpuOf (setLimits tn cpu memory o) = reqCpuOf o)
    ∧ (jsTruthy (cpu.bind CPULimits.limit) = false →
        limCpuOf (setLimits tn cpu memory o) = limCpuOf o)
    ∧ (jsTruthy (memory.bind MemoryLimits.request) = false →
        reqMemOf (setLimits tn cpu memory o) = reqMemOf o)
    ∧ (jsTruthy (memory.bind MemoryLimits.limit) = false →
        limMemOf (setLimits tn cpu memory o) = limMemOf o) := by
  by_cases h : (o.kind == "Deployment" && o.metadata.name == tn) = true
  · rcases o with ⟨k, m, ⟨rr, ⟨⟨conts, tols⟩⟩, e1, e2, e3, e4⟩⟩
    cases conts with
    | nil =>
      simp [setLimits, h, clearHeadResources, reqCpuOf, limCpuOf, reqMemOf, limMemOf,
        headContainer, List.modifyHead]
    | cons c rest =>
      simp only [setLimits, h, if_true]
      refine ⟨?_, ?_, ?_, ?_, ?_⟩
      · simp [clearHeadResources, applyLimitsToContainer_eq, applyWritesC, List.modifyHead]
      all_goals
        intro hh
        simp [reqCpuOf, limCpuOf, reqMemOf, limMemOf, headContainer, List.modifyHead,
          applyLimitsToContainer_eq, applyWritesC, wapp_truthyVal, hh]
  · rw [setLimits_no_match tn cpu memory o (by simpa using h)]
    exact ⟨rfl, fun _ => rfl, fun _ => rfl, fun _ => rfl, fun _ => rfl⟩

/-- Claim C2 witness: with only a CPU request present, the CPU limit and the
two memory fields of the matching Deployment keep their pre-call values. -/
theorem setLimits_writes_only_present_witness :
    limCpuOf (setLimits "temporal-frontend" (some ⟨some "500m", none⟩) none sampleDeployment)
      = limCpuOf sampleDeployment
    ∧ reqMemOf (setLimits "temporal-frontend" (some ⟨some "500m", none⟩) none sampleDeployment)
      = reqMemOf sampleDeployment
    ∧ limMemOf (setLimits "temporal-frontend" (some ⟨some "500m", none⟩) none sampleDeployment)
      = limMemOf sampleDeployment := by
  have h := setLimits_writes_only_present "temporal-frontend"
    (some ⟨some "500m", none⟩) none sampleDeployment
  exact ⟨h.2.2.1 rfl, h.2.2.2.1 rfl, h.2.2.2.2 rfl⟩

/-- Claim C3: on the matching Prometheus object `configureRemoteWrite` forces
one replica, clears the replica external label name, and replaces any
pre-existing remote-write list with exactly the single fixed entry (endpoint
concatenated with the remote-write path, SigV4 region, the fixed queue
configuration, and the two-step relabel rule). -/
theorem configureRemoteWrite_spec (tn region endpoint : String) (o : StructuredObject)
    (hk : o.kind = "Prometheus") (hn : o.metadata.name = tn) :
    (configureRemoteWrite tn region endpoint o).spec.replicas = some 1
    ∧ (configureRemoteWrite tn region endpoint o).spec.replicaExternalLabelName = some ""
    ∧ (configureRemoteWrite tn region endpoint o).spec.remoteWrite = some
        [⟨endpoint ++ "api/v1/remote_write", ⟨region⟩, ⟨1000, 200, 2500⟩,
          [⟨["exported_namespace"], some "(.+)", some "namespace", none⟩,
           ⟨[], some "exported_namespace", none, some "labeldrop"⟩]⟩] := by
  simp [configureRemoteWrite, hk, hn]

/-- Claim C3 witness: applied with region us-west-2 and endpoint
`https://prom.example/` to a Prometheus object carrying a two-entry
remote-write list, the result is the exact singleton entry. -/
theorem configureRemoteWrite_spec_witness :
    (configureRemoteWrite "k8s" "us-west-2" "https://prom.example/"
        samplePrometheus).spec.remoteWrite
      = some [⟨"https://prom.example/api/v1/remote_write", ⟨"us-west-2"⟩, ⟨1000, 200, 2500⟩,
          [⟨["exported_namespace"], some "(.+)", some "namespace", none⟩,
           ⟨[], some "exported_namespace", none, some "labeldrop"⟩]⟩]
    ∧ (configureRemoteWrite "k8s" "us-west-2" "https://prom.example/"
        samplePrometheus).spec.replicas = some 1
    ∧ (configureRemoteWrite "k8s" "us-west-2" "https://prom.example/"
        samplePrometheus).spec.replicaExternalLabelName = some "" := by
  have h := configureRemoteWrite_spec "k8s" "us-west-2" "https://prom.example/"
    samplePrometheus rfl rfl
  exact ⟨by rw [h.2.2]; rfl, h.1, h.2.1⟩

/-- Claim C4: applying a configured transformation list (replica scalers,
limit setters, toleration setters) twice in sequence to the same manifest
group yields exactly the objects produced by applying it once. -/
theorem transform_pipeline_idempotent (ts : List Transform) (g : List StructuredObject) :
    applyGroup ts (applyGroup ts g) = applyGroup ts g := by
  rw [applyGroup_eq_map, applyGroup_eq_map, List.map_map]
  have h : applyList ts ∘ applyList ts = applyList ts :=
    funext (fun o => applyList_idem ts o)
  rw [h]

/-- Claim C5 counterexample: the Cassandra output map has no
`CASSANDRA_PWD` key (the password key is `CASSANDRA_PASSWORD`), where the
claim predicts a prefix-`PWD` key for every family. -/
theorem createPersistence_cassandra_password_key :
    (createPersistence 512 "db.example" ⟨none, some sampleCassandra, ⟨none⟩⟩).map
        (fun out => (hasKey out "CASSANDRA_PWD", hasKey out "CASSANDRA_PASSWORD"))
      = .ok (false, true) := rfl

/-- Claim C5 (amended): every successful persistence resolution outputs the
keys DB, DB_PORT, DBNAME and NUM_HISTORY_SHARDS, plus the selected family's
seeds/user keys and its password key — `_PWD` for the POSTGRES/MYSQL
prefixes, but `_PASSWORD` for the CASSANDRA prefix. -/
theorem createPersistence_output_keys (shards : Nat) (ep : String)
    (cfg : PersistenceConfig) (out : List (String × String))
    (h : createPersistence shards ep cfg = .ok out) :
    hasKey out "DB" = true ∧ hasKey out "DB_PORT" = true ∧ hasKey out "DBNAME" = true
    ∧ hasKey out "NUM_HISTORY_SHARDS" = true
    ∧ (∀ r : RDSPersistenceConfig, cfg.RDS = some r →
        (r.Engine = "postgres" ∨ r.Engine = "aurora-postgresql") →
        hasKey out "POSTGRES_SEEDS" = true ∧ hasKey out "POSTGRES_USER" = true
          ∧ hasKey out "POSTGRES_PWD" = true)
    ∧ (∀ r : RDSPersistenceConfig, cfg.RDS = some r →
        (r.Engine = "mysql" ∨ r.Engine = "aurora-mysql") →
        hasKey out "MYSQL_SEEDS" = true ∧ hasKey out "MYSQL_USER" = true
          ∧ hasKey out "MYSQL_PWD" = true)
    ∧ (cfg.RDS = none → ∀ c : CassandraPersistenceConfig, cfg.Cassandra = some c →
        hasKey out "CASSANDRA_SEEDS" = true ∧ hasKey out "CASSANDRA_USER" = true
          ∧ hasKey out "CASSANDRA_PASSWORD" = true) := by
  rcases hr : cfg.RDS with _ | r
  · rcases hc : cfg.Cassandra with _ | c
    · rw [createPersistence, hr, hc] at h
      exact absurd h (by simp)
    · rw [createPersistence, hr, hc] at h
      rcases h with ⟨⟩
      refine ⟨?_, ?_, ?_, ?_, ?_, ?_, ?_⟩
      · simp [hasKey, cassandraPersistence, List.any_append]
      · simp [hasKey, cassandraPersistence, List.any_append]
      · simp [hasKey, cassandraPersistence, List.any_append]
      · simp [hasKey, cassandraPersistence, List.any_append]
      · intro r2 hr2 _
        exact Option.noConfusion hr2
      · intro r2 hr2 _
        exact Option.noConfusion hr2
      · intro _ c2 _
        refine ⟨?_, ?_, ?_⟩ <;> simp [hasKey, cassandraPersistence, List.any_append]
  · rw [createPersistence, hr] at h
    simp only [rdsPersistence] at h
    by_cases h1 : (r.Engine == "postgres" || r.Engine == "aurora-postgresql") = true
    · rw [if_pos h1] at h
      simp only [Except.map, Except.ok.injEq] at h
      subst h
      refine ⟨?_, ?_, ?_, ?_, ?_, ?_, ?_⟩
      · simp [hasKey, rdsData, List.any_append]
      · simp [hasKey, rdsData, List.any_append]
      · simp [hasKey, rdsData, List.any_append]
      · simp [hasKey, rdsData, List.any_append]
      · intro r2 _ _
        refine ⟨?_, ?_, ?_⟩ <;> simp [hasKey, rdsData, List.any_append]
      · intro r2 hr2 heng
        injection hr2 with hr2
        subst hr2
        rcases heng with he | he <;> rw [he] at h1 <;> exact absurd h1 (by decide)
      · intro hn
        exact Option.noConfusion hn
    · rw [if_neg h1] at h
      by_cases h2 : (r.Engine == "mysql" || r.Engine == "aurora-mysql") = true
      · rw [if_pos h2] at h
        simp only [Except.map, Except.ok.injEq] at h
        subst h
        refine ⟨?_, ?_, ?_, ?_, ?_, ?_, ?_⟩
        · simp [hasKey, rdsData, List.any_append]
        · simp [hasKey, rdsData, List.any_append]
        · simp [hasKey, rdsData, List.any_append]
        · simp [hasKey, rdsData, List.any_append]
        · intro r2 hr2 heng
          injection hr2 with hr2
          subst hr2
          rcases heng with he | he <;> rw [he] at h1 <;> exact absurd h1 (by decide)
        · intro r2 _ _
          refine ⟨?_, ?_, ?_⟩ <;> simp [hasKey, rdsData, List.any_append]
        · intro hn
          exact Option.noConfusion hn
      · rw [if_neg h2] at h
        exact absurd h (by simp [Except.map])

/-- Claim C5 witness: the postgres resolution output carries the common keys
and, for the selected POSTGRES family, the prefixed seeds/user/pwd keys. -/
theorem createPersistence_output_keys_witness :
    hasKey (rdsData 512 "postgresql" 5432 "POSTGRES" "db.example" []) "DB" = true
    ∧ hasKey (rdsData 512 "postgresql" 5432 "POSTGRES" "db.example" []) "DB_PORT" = true
    ∧ hasKey (rdsData 512 "postgresql" 5432 "POSTGRES" "db.example" []) "DBNAME" = true
    ∧ hasKey (rdsData 512 "postgresql" 5432 "POSTGRES" "db.example" []) "NUM_HISTORY_SHARDS" = true
    ∧ hasKey (rdsData 512 "postgresql" 5432 "POSTGRES" "db.example" []) "POSTGRES_SEEDS" = true
    ∧ hasKey (rdsData 512 "postgresql" 5432 "POSTGRES" "db.example" []) "POSTGRES_USER" = true
    ∧ hasKey (rdsData 512 "postgresql" 5432 "POSTGRES" "db.example" []) "POSTGRES_PWD" = true := by
  have h := createPersistence_output_keys 512 "db.example" ⟨some samplePostgres, none, ⟨none⟩⟩
    (rdsData 512 "postgresql" 5432 "POSTGRES" "db.example" []) rfl
  obtain ⟨hs, hu, hp⟩ := h.2.2.2.2.1 samplePostgres rfl (Or.inl rfl)
  exact ⟨h.1, h.2.1, h.2.2.1, h.2.2.2.1, hs, hu, hp⟩

/-- Claim C6: `tolerateDedicated` overwrites the toleration list of every
Deployment (no name filter) with the identical single fixed entry and leaves
every non-Deployment object entirely unchanged (in particular it adds no
toleration field to it). -/
theorem tolerateDedicated_spec (v : String) (o : StructuredObject) :
    (o.kind = "Deployment" →
      tolerateDedicated v o = { o with spec := { o.spec with
        template := { o.spec.template with spec := { o.spec.template.spec with
          tolerations := some [⟨"dedicated", "Equal", v, "NoSchedule"⟩] } } } })
    ∧ (o.kind ≠ "Deployment" → tolerateDedicated v o = o) := by
  constructor
  · intro h
    simp [tolerateDedicated, h]
  · intro h
    simp [tolerateDedicated, h]

/-- Claim C6 witness: a Deployment receives the fixed toleration list; a
Service is returned unchanged, with no toleration field added. -/
theorem tolerateDedicated_spec_witness :
    (tolerateDedicated "temporal" sampleDeployment).spec.template.spec.tolerations
      = some [⟨"dedicated", "Equal", "temporal", "NoSchedule"⟩]
    ∧ tolerateDedicated "temporal" sampleService = sampleService := by
  have h1 := (tolerateDedicated_spec "temporal" sampleDeployment).1 rfl
  have h2 := (tolerateDedicated_spec "temporal" sampleService).2 (by decide)
  exact ⟨by rw [h1], h2⟩

/-- Claim C7: on the matching GrafanaDatasource object the patcher
overwrites the URL exactly when the endpoint is non-empty and always
overwrites the signing metadata to SigV4 with IAM-role auth and the given
region. -/
theorem configureAWSDatasource_spec (tn region endpoint : String) (o : StructuredObject)
    (hk : o.kind = "GrafanaDatasource") (hn : o.metadata.name = tn) :
    (configureAWSDatasource tn region endpoint o).spec.datasource.jsonData
      = some ⟨true, "ec2_iam_role", region⟩
    ∧ (endpoint ≠ "" →
        (configureAWSDatasource tn region endpoint o).spec.datasource.url = some endpoint)
    ∧ (endpoint = "" →
        (configureAWSDatasource tn region endpoint o).spec.datasource.url
          = o.spec.datasource.url) := by
  by_cases he : endpoint = ""
  · subst he
    simp [configureAWSDatasource, hk, hn]
  · simp [configureAWSDatasource, hk, hn, he]

/-- Claim C7 witness: a non-empty endpoint overwrites the pre-existing URL
and sets the signing block; an empty endpoint leaves the URL untouched. -/
theorem configureAWSDatasource_spec_witness :
    (configureAWSDatasource "external-prometheus" "us-west-2" "https://prom.example/"
        sampleDatasource).spec.datasource.url = some "https://prom.example/"
    ∧ (configureAWSDatasource "external-prometheus" "us-west-2" "https://prom.example/"
        sampleDatasource).spec.datasource.jsonData = some ⟨true, "ec2_iam_role", "us-west-2"⟩
    ∧ (configureAWSDatasource "external-prometheus" "us-west-2" ""
        sampleDatasource).spec.datasource.url = sampleDatasource.spec.datasource.url := by
  have h1 := configureAWSDatasource_spec "external-prometheus" "us-west-2"
    "https://prom.example/" sampleDatasource rfl rfl
  have h2 := configureAWSDatasource_spec "external-prometheus" "us-west-2"
    "" sampleDatasource rfl rfl
  exact ⟨h1.2.1 (by decide), h1.1, h2.2.2 rfl⟩

/-- Claim C8: the engine identifier maps to its fixed
(protocol, port, key-prefix) triple — postgres and aurora-postgresql to
(postgresql, 5432, POSTGRES), mysql and aurora-mysql to (mysql, 3306,
MYSQL) — and any other engine identifier fails with the invalid-RDS-config
error. -/
theorem rdsPersistence_engine_map (shards : Nat) (cfg : RDSPersistenceConfig) (ep : String) :
    ((cfg.Engine = "postgres" ∨ cfg.Engine = "aurora-postgresql") →
      (rdsPersistence shards cfg ep).map (fun out =>
          (lookupKey out "DB", lookupKey out "DB_PORT", lookupKey out "POSTGRES_SEEDS",
           lookupKey out "POSTGRES_USER", lookupKey out "POSTGRES_PWD"))
        = .ok (some "postgresql", some "5432", some ep, some "temporal", some "temporal"))
    ∧ ((cfg.Engine = "mysql" ∨ cfg.Engine = "aurora-mysql") →
      (rdsPersistence shards cfg ep).map (fun out =>
          (lookupKey out "DB", lookupKey out "DB_PORT", lookupKey out "MYSQL_SEEDS",
           lookupKey out "MYSQL_USER", lookupKey out "MYSQL_PWD"))
        = .ok (some "mysql", some "3306", some ep, some "temporal", some "temporal"))
    ∧ (cfg.Engine ≠ "postgres" → cfg.Engine ≠ "aurora-postgresql" →
        cfg.Engine ≠ "mysql" → cfg.Engine ≠ "aurora-mysql" →
        rdsPersistence shards cfg ep = .error "invalid RDS config") := by
  refine ⟨?_, ?_, ?_⟩
  · rintro (he | he) <;>
      simp [rdsPersistence, he, rdsData, lookupKey, Except.map] <;> rfl
  · rintro (he | he) <;>
      simp [rdsPersistence, he, rdsData, lookupKey, Except.map] <;> rfl
  · intro n1 n2 n3 n4
    have e1 : (cfg.Engine == "postgres") = false := beq_eq_false_iff_ne.mpr n1
    have e2 : (cfg.Engine == "aurora-postgresql") = false := beq_eq_false_iff_ne.mpr n2
    have e3 : (cfg.Engine == "mysql") = false := beq_eq_false_iff_ne.mpr n3
    have e4 : (cfg.Engine == "aurora-mysql") = false := beq_eq_false_iff_ne.mpr n4
    simp [rdsPersistence, e1, e2, e3, e4]

/-- Claim C8 witness: aurora-mysql resolves to the (mysql, 3306, MYSQL)
triple and an unrecognized engine fails. -/
theorem rdsPersistence_engine_map_witness :
    (rdsPersistence 512 ⟨"env", "aurora-mysql", "8.0", "db.r6g.large", false⟩
        "db.example").map (fun out =>
        (lookupKey out "DB", lookupKey out "DB_PORT", lookupKey out "MYSQL_SEEDS",
         lookupKey out "MYSQL_USER", lookupKey out "MYSQL_PWD"))
      = .ok (some "mysql", some "3306", some "db.example", some "temporal", some "temporal")
    ∧ rdsPersistence 512 ⟨"env", "sqlite", "3", "db.t3.micro", true⟩ "db.example"
      = .error "invalid RDS config" := by
  have h1 := rdsPersistence_engine_map 512
    ⟨"env", "aurora-mysql", "8.0", "db.r6g.large", false⟩ "db.example"
  have h2 := rdsPersistence_engine_map 512
    ⟨"env", "sqlite", "3", "db.t3.micro", true⟩ "db.example"
  exact ⟨h1.2.1 (Or.inr rfl),
    h2.2.2 (by decide) (by decide) (by decide) (by decide)⟩

/-- Claim C9: with a positive frontend pod count, the CONCURRENT_WORKFLOWS
output is the string form of the ceiling of the concurrent-workflow count
divided by the pod count: the printed number `q` is the least natural with
`cw ≤ q * pods`. -/
theorem soakTest_concurrent_workflows (cw pods : Nat) (h : 0 < pods) :
    lookupKey (soakTestConfigData cw pods) "CONCURRENT_WORKFLOWS"
      = some (toString (Nat.ceil ((cw : ℚ) / (pods : ℚ))))
    ∧ cw ≤ Nat.ceil ((cw : ℚ) / (pods : ℚ)) * pods
    ∧ ∀ m : Nat, cw ≤ m * pods → Nat.ceil ((cw : ℚ) / (pods : ℚ)) ≤ m := by
  have hp : (0 : ℚ) < (pods : ℚ) := by exact_mod_cast h
  refine ⟨rfl, ?_, ?_⟩
  · have h1 : (cw : ℚ) / (pods : ℚ) ≤ (Nat.ceil ((cw : ℚ) / (pods : ℚ)) : ℚ) :=
      Nat.le_ceil _
    have h2 : (cw : ℚ) ≤ (Nat.ceil ((cw : ℚ) / (pods : ℚ)) : ℚ) * (pods : ℚ) := by
      rwa [div_le_iff₀ hp] at h1
    exact_mod_cast h2
  · intro m hm
    have h2 : (cw : ℚ) ≤ (m : ℚ) * (pods : ℚ) := by exact_mod_cast hm
    have h3 : (cw : ℚ) / (pods : ℚ) ≤ (m : ℚ) := by rwa [div_le_iff₀ hp]
    exact Nat.ceil_le.mpr (by exact_mod_cast h3)

/-- Claim C9 witness: seven concurrent workflows over two frontend pods. -/
theorem soakTest_concurrent_workflows_witness :
    0 < 2
    ∧ lookupKey (soakTestConfigData 7 2) "CONCURRENT_WORKFLOWS"
      = some (toString (Nat.ceil ((7 : ℚ) / (2 : ℚ))))
    ∧ 7 ≤ Nat.ceil ((7 : ℚ) / (2 : ℚ)) * 2 := by
  have h := soakTest_concurrent_workflows 7 2 (by decide)
  exact ⟨by decide, h.1, h.2.1⟩

/-- Claim C10 counterexample: with both branches populated but an
unrecognized RDS engine, resolution fails — refuting the unconditional
does-not-fail claim. -/
theorem createPersistence_both_invalid_engine_fails :
    createPersistence 512 "db.example" bothBranchesBadEngine
      = .error "invalid RDS config" := rfl

/-- Claim C10 (amended): with both persistence branches populated the
resolver behaves exactly as if the Cassandra branch were absent — it uses
the RDS branch — and does not fail provided the RDS engine identifier is
recognized. -/
theorem createPersistence_prefers_rds (shards : Nat) (ep : String)
    (pc : PersistenceConfig) (r : RDSPersistenceConfig) (h : pc.RDS = some r) :
    createPersistence shards ep pc
      = createPersistence shards ep { pc with Cassandra := none }
    ∧ ((r.Engine = "postgres" ∨ r.Engine = "aurora-postgresql" ∨ r.Engine = "mysql"
        ∨ r.Engine = "aurora-mysql") →
      (createPersistence shards ep pc).isOk = true) := by
  constructor
  · simp [createPersistence, h]
  · intro he
    rcases he with he | he | he | he <;>
      simp [createPersistence, h, rdsPersistence, he, Except.map, Except.isOk, Except.toBool]

/-- Claim C10 witness: both branches populated with a postgres engine —
the Cassandra branch is ignored and resolution succeeds. -/
theorem createPersistence_prefers_rds_witness :
    createPersistence 512 "db.example" bothBranches
      = createPersistence 512 "db.example" { bothBranches with Cassandra := none }
    ∧ (createPersistence 512 "db.example" bothBranches).isOk = true := by
  have h := createPersistence_prefers_rds 512 "db.example" bothBranches samplePostgres rfl
  exact ⟨h.1, h.2 (Or.inl rfl)⟩

end TemporalBench
